import Mathlib

/-!
Shallow embedding of the procedural solid-geometry core of the Imagen-3D
repository (src/app/services/generator.py and
src/backend/app/services/stl.py), together with proofs settling the frozen
claims about it.

Modelling conventions:
* Python floats are modelled by exact numbers: `ℚ` for the shapes whose
  coordinates are rational expressions of the inputs (cube, hollow box, the
  serializer), `ℝ` for the trigonometric shapes (cylinder, sphere).
* `np.sqrt`/`np.linalg.norm` is modelled by `Rat.sqrt` on the `ℚ` side (it is
  exact on the perfect-square magnitudes that arise there) and by `Real.sqrt`
  on the `ℝ` side; the square-root function is a parameter of the generic
  serializer definitions.
* Python's fixed-point formatting `{v:.6f}` (braces elided) is modelled by
  `formatFixed6`: scale by 10^6, round half-to-even, render with exactly six
  fractional digits, a leading minus sign for negative inputs.
* The `filename` entry of the metadata dictionaries is not modelled: no claim
  concerns it and it only repackages Python float `repr` formatting.
-/

namespace Imagen3D

/-- Vector of three coordinates, the element type of every vertex and normal
(source: the 3-element Python lists / numpy arrays used throughout). -/
structure Vec3 (α : Type) where
  x : α
  y : α
  z : α
  deriving DecidableEq, Repr

/-- Componentwise subtraction, modelling numpy array subtraction. -/
def Vec3.sub {α : Type} [Sub α] (a b : Vec3 α) : Vec3 α :=
  ⟨a.x - b.x, a.y - b.y, a.z - b.z⟩

/-- Cross product, modelling `np.cross`. -/
def Vec3.cross {α : Type} [Mul α] [Sub α] (a b : Vec3 α) : Vec3 α :=
  ⟨a.y * b.z - a.z * b.y, a.z * b.x - a.x * b.z, a.x * b.y - a.y * b.x⟩

/-- Dot product. -/
def Vec3.dot {α : Type} [Mul α] [Add α] (a b : Vec3 α) : α :=
  a.x * b.x + a.y * b.y + a.z * b.z

/-- Triangle: an ordered triple of vertices, as in the Python tuples
`(v1, v2, v3)`. -/
abbrev Tri (V : Type) := V × V × V

/-- List of a triangle's vertices in order. -/
def triVerts {V : Type} (t : Tri V) : List V := [t.1, t.2.1, t.2.2]

/-- Translation of `calculate_normal` (stl.py): cross product of the two edge
vectors, divided by its magnitude when that magnitude is strictly positive,
returned unnormalized (hence zero for a zero cross product) otherwise.  The
square-root used by `np.linalg.norm` is passed in as `sqrtFn`. -/
def calculate_normal {α : Type} [LinearOrderedField α]
    (sqrtFn : α → α) (v1 v2 v3 : Vec3 α) : Vec3 α :=
  let edge1 := v2.sub v1
  let edge2 := v3.sub v1
  let n := edge1.cross edge2
  let norm := sqrtFn (n.x * n.x + n.y * n.y + n.z * n.z)
  if 0 < norm then ⟨n.x / norm, n.y / norm, n.z / norm⟩ else n

/-- Decimal digit character. -/
def digChar : ℕ → Char
  | 0 => '0' | 1 => '1' | 2 => '2' | 3 => '3' | 4 => '4'
  | 5 => '5' | 6 => '6' | 7 => '7' | 8 => '8' | _ => '9'

/-- Decimal digits of `n`, most significant first; `fuel` bounds the
recursion and any `fuel > n` is enough. -/
def natDigitsAux : ℕ → ℕ → List Char
  | 0, _ => []
  | fuel + 1, n =>
    if n < 10 then [digChar n]
    else natDigitsAux fuel (n / 10) ++ [digChar (n % 10)]

/-- Decimal rendering of a natural number. -/
def natLit (n : ℕ) : String := ⟨natDigitsAux (n + 1) n⟩

/-- Rounding half-to-even to an integer, the rounding used by Python's
fixed-point float formatting. -/
def roundHalfEven {α : Type} [LinearOrderedField α] [FloorRing α] (q : α) : ℤ :=
  let f := ⌊q⌋
  let r := q - f
  if r < 1 / 2 then f
  else if 1 / 2 < r then f + 1
  else if f % 2 = 0 then f else f + 1

/-- Fractional part of the fixed-point rendering: `n < 10^6` zero-padded on
the left to exactly six digits. -/
def fracPart6 (n : ℕ) : String :=
  ⟨List.replicate (6 - (natLit n).length) '0' ++ (natLit n).data⟩

/-- Model of Python's fixed-point formatting of a float with six fractional
digits: round the scaled value half-to-even and render sign, integer part,
point, and a six-digit fraction. -/
def formatFixed6 {α : Type} [LinearOrderedField α] [FloorRing α] (v : α) : String :=
  let n := roundHalfEven (v * 1000000)
  let mag := n.natAbs
  (if v < 0 then "-" else "") ++ natLit (mag / 1000000) ++ "." ++ fracPart6 (mag % 1000000)

/-- Translation of `create_stl_header`. -/
def create_stl_header : String := "solid modelo3d\n"

/-- Translation of `create_stl_footer`. -/
def create_stl_footer : String := "endsolid modelo3d\n"

/-- Facet-normal line written by `write_triangle_to_buffer`. -/
def facet_normal_line {α : Type} [LinearOrderedField α] [FloorRing α]
    (sqrtFn : α → α) (v1 v2 v3 : Vec3 α) : String :=
  let normal := calculate_normal sqrtFn v1 v2 v3
  "  facet normal " ++ formatFixed6 normal.x ++ " " ++ formatFixed6 normal.y
    ++ " " ++ formatFixed6 normal.z ++ "\n"

/-- Vertex line written by `write_triangle_to_buffer`. -/
def vertex_line {α : Type} [LinearOrderedField α] [FloorRing α] (v : Vec3 α) : String :=
  "      vertex " ++ formatFixed6 v.x ++ " " ++ formatFixed6 v.y
    ++ " " ++ formatFixed6 v.z ++ "\n"

/-- Translation of `write_triangle_to_buffer`: the full facet block appended
to the buffer for one triangle. -/
def write_triangle {α : Type} [LinearOrderedField α] [FloorRing α]
    (sqrtFn : α → α) (v1 v2 v3 : Vec3 α) : String :=
  facet_normal_line sqrtFn v1 v2 v3
    ++ "    outer loop\n"
    ++ vertex_line v1 ++ vertex_line v2 ++ vertex_line v3
    ++ "    endloop\n"
    ++ "  endfacet\n"

/-- Concatenation of the facet blocks of a triangle list, in list order. -/
def stlBody {α : Type} [LinearOrderedField α] [FloorRing α]
    (sqrtFn : α → α) : List (Tri (Vec3 α)) → String
  | [] => ""
  | t :: ts => write_triangle sqrtFn t.1 t.2.1 t.2.2 ++ stlBody sqrtFn ts

/-- Translation of `generate_stl_content`: header, facet blocks in order,
footer. -/
def generate_stl_content {α : Type} [LinearOrderedField α] [FloorRing α]
    (sqrtFn : α → α) (triangles : List (Tri (Vec3 α))) : String :=
  create_stl_header ++ stlBody sqrtFn triangles ++ create_stl_footer

/-- Metadata dictionary returned alongside the mesh text.  The `filename`
entry of the source dictionary is not modelled (see the file header). -/
structure Metadata (α : Type) where
  model_type : String
  dimensions : List (String × α)
  triangles : ℕ
  deriving DecidableEq

/-- Corner vertices of the cube, translated from `generate_cube`. -/
def cubeVertices (size : ℚ) : List (Vec3 ℚ) :=
  [⟨0, 0, 0⟩, ⟨size, 0, 0⟩, ⟨size, size, 0⟩, ⟨0, size, 0⟩,
   ⟨0, 0, size⟩, ⟨size, 0, size⟩, ⟨size, size, size⟩, ⟨0, size, size⟩]

/-- Face index triples of the cube, translated from `generate_cube`. -/
def cubeFaces : List (Tri ℕ) :=
  [(0, 1, 2), (0, 2, 3),
   (4, 6, 5), (4, 7, 6),
   (0, 4, 5), (0, 5, 1),
   (2, 6, 7), (2, 7, 3),
   (0, 3, 7), (0, 7, 4),
   (1, 5, 6), (1, 6, 2)]

/-- Triangle list of the cube: each face triple resolved through the vertex
list, in face order. -/
def cubeTriangles (size : ℚ) : List (Tri (Vec3 ℚ)) :=
  cubeFaces.map fun f =>
    ((cubeVertices size).getD f.1 ⟨0, 0, 0⟩,
     (cubeVertices size).getD f.2.1 ⟨0, 0, 0⟩,
     (cubeVertices size).getD f.2.2 ⟨0, 0, 0⟩)

/-- Translation of `generate_cube`: STL text and metadata. -/
def generate_cube (size : ℚ) : String × Metadata ℚ :=
  let triangles := cubeTriangles size
  (generate_stl_content Rat.sqrt triangles,
   { model_type := "cube"
     dimensions := [("size", size)]
     triangles := triangles.length })

/-- External (outer shell) vertices of the hollow box, translated from
`generate_custom_box`. -/
def extVertices (length width height : ℚ) : List (Vec3 ℚ) :=
  [⟨0, 0, 0⟩, ⟨length, 0, 0⟩, ⟨length, width, 0⟩, ⟨0, width, 0⟩,
   ⟨0, 0, height⟩, ⟨length, 0, height⟩, ⟨length, width, height⟩, ⟨0, width, height⟩]

/-- Internal (cavity) vertices of the hollow box, inset by the wall
thickness `t` on x and y and starting at z = t. -/
def intVertices (length width height t : ℚ) : List (Vec3 ℚ) :=
  [⟨t, t, t⟩, ⟨length - t, t, t⟩, ⟨length - t, width - t, t⟩, ⟨t, width - t, t⟩,
   ⟨t, t, height⟩, ⟨length - t, t, height⟩, ⟨length - t, width - t, height⟩,
   ⟨t, width - t, height⟩]

/-- External face index triples of the hollow box (base and four sides, no
top). -/
def extFaces : List (Tri ℕ) :=
  [(0, 1, 2), (0, 2, 3),
   (0, 4, 5), (0, 5, 1),
   (1, 5, 6), (1, 6, 2),
   (2, 6, 7), (2, 7, 3),
   (3, 7, 4), (3, 4, 0)]

/-- Internal face index triples of the hollow box (inverted vertex order). -/
def intFaces : List (Tri ℕ) :=
  [(0, 2, 1), (0, 3, 2),
   (0, 5, 4), (0, 1, 5),
   (1, 6, 5), (1, 2, 6),
   (2, 7, 6), (2, 3, 7),
   (3, 4, 7), (3, 0, 4)]

/-- Wall-stitching triangles appended at the end of `generate_custom_box`
(the four appends under the comment `Connect walls`), connecting the outer
shell to the inner shell. -/
def stitchTriangles (length width height t : ℚ) : List (Tri (Vec3 ℚ)) :=
  let ev := extVertices length width height
  let iv := intVertices length width height t
  let d : Vec3 ℚ := ⟨0, 0, 0⟩
  [(ev.getD 0 d, iv.getD 0 d, ev.getD 4 d),
   (iv.getD 0 d, iv.getD 4 d, ev.getD 4 d),
   (ev.getD 1 d, ev.getD 5 d, iv.getD 1 d),
   (iv.getD 1 d, ev.getD 5 d, iv.getD 5 d)]

/-- Triangle list of the hollow box: external faces, internal faces, then
the wall-stitching triangles, in source order. -/
def boxTriangles (length width height t : ℚ) : List (Tri (Vec3 ℚ)) :=
  (extFaces.map fun f =>
    ((extVertices length width height).getD f.1 ⟨0, 0, 0⟩,
     (extVertices length width height).getD f.2.1 ⟨0, 0, 0⟩,
     (extVertices length width height).getD f.2.2 ⟨0, 0, 0⟩))
  ++ (intFaces.map fun f =>
    ((intVertices length width height t).getD f.1 ⟨0, 0, 0⟩,
     (intVertices length width height t).getD f.2.1 ⟨0, 0, 0⟩,
     (intVertices length width height t).getD f.2.2 ⟨0, 0, 0⟩))
  ++ stitchTriangles length width height t

/-- Translation of `generate_custom_box`: STL text and metadata. -/
def generate_custom_box (length width height wall_thickness : ℚ) :
    String × Metadata ℚ :=
  let triangles := boxTriangles length width height wall_thickness
  (generate_stl_content Rat.sqrt triangles,
   { model_type := "custom_box"
     dimensions := [("length", length), ("width", width), ("height", height),
                    ("wall_thickness", wall_thickness)]
     triangles := triangles.length })

/-- Range constraint of the external validator `CubeParams` (schemas.py):
size between 0.1 and 500 millimeters. -/
def cubeParamsValid (size : ℚ) : Prop := 1 / 10 ≤ size ∧ size ≤ 500

section RealShapes

open Real

/-- Angle sample `i` of `np.linspace(0, 2*pi, n, endpoint=False)`:
the half-open uniform subdivision of the circle. -/
noncomputable def cylAngle (n i : ℕ) : ℝ := 2 * Real.pi * i / n

/-- Bottom-ring vertex `i` of the cylinder (z = 0). -/
noncomputable def base_inferior (r : ℝ) (n i : ℕ) : Vec3 ℝ :=
  ⟨r * Real.cos (cylAngle n i), r * Real.sin (cylAngle n i), 0⟩

/-- Top-ring vertex `i` of the cylinder (z = height). -/
noncomputable def base_superior (r h : ℝ) (n i : ℕ) : Vec3 ℝ :=
  ⟨r * Real.cos (cylAngle n i), r * Real.sin (cylAngle n i), h⟩

/-- First lateral triangle of quad `i` of the cylinder wall, translated from
the `Triangle 1` append in `generate_cylinder`. -/
noncomputable def sideTri1 (r h : ℝ) (n i : ℕ) : Tri (Vec3 ℝ) :=
  (base_inferior r n i, base_superior r h n i, base_inferior r n ((i + 1) % n))

/-- Second lateral triangle of quad `i` of the cylinder wall, translated
from the `Triangle 2` append in `generate_cylinder`. -/
noncomputable def sideTri2 (r h : ℝ) (n i : ℕ) : Tri (Vec3 ℝ) :=
  (base_inferior r n ((i + 1) % n), base_superior r h n i,
   base_superior r h n ((i + 1) % n))

/-- Triangle list of the cylinder: bottom cap fan, top cap fan, then the
two lateral triangles per ring segment, in source order.  `n` is the
already-clamped segment count. -/
noncomputable def cylinderTriangles (r h : ℝ) (n : ℕ) : List (Tri (Vec3 ℝ)) :=
  ((List.range n).map fun i =>
    ((⟨0, 0, 0⟩ : Vec3 ℝ), base_inferior r n ((i + 1) % n), base_inferior r n i))
  ++ ((List.range n).map fun i =>
    ((⟨0, 0, h⟩ : Vec3 ℝ), base_superior r h n i, base_superior r h n ((i + 1) % n)))
  ++ ((List.range n).flatMap fun i => [sideTri1 r h n i, sideTri2 r h n i])

/-- Translation of `generate_cylinder`: the segment count is clamped to
[6, 256] first, then the mesh is built and serialized. -/
noncomputable def generate_cylinder (radius height : ℝ) (segments : ℤ) :
    String × Metadata ℝ :=
  let n := (max 6 (min segments 256)).toNat
  let triangles := cylinderTriangles radius height n
  (generate_stl_content Real.sqrt triangles,
   { model_type := "cylinder"
     dimensions := [("radius", radius), ("height", height), ("segments", (n : ℝ))]
     triangles := triangles.length })

/-- Vertex (i, j) of the sphere grid: latitude row `i` of `n+1`, longitude
column `j` of `n`, translated from `generate_sphere`. -/
noncomputable def sphereVertex (r : ℝ) (n i j : ℕ) : Vec3 ℝ :=
  let lat := Real.pi * i / n - Real.pi / 2
  let lon := 2 * Real.pi * j / n
  ⟨r * Real.cos lat * Real.cos lon, r * Real.cos lat * Real.sin lon, r * Real.sin lat⟩

/-- Flattened vertex list of the sphere: rows `i = 0..n`, columns
`j = 0..n-1`, row-major as in the source. -/
noncomputable def sphereVertices (r : ℝ) (n : ℕ) : List (Vec3 ℝ) :=
  (List.range (n + 1)).flatMap fun i => (List.range n).map fun j => sphereVertex r n i j

/-- Triangle list of the sphere: for every latitude band `i < n` and
longitude step `j < n`, the two quad triangles, with the source's
(always-true) `i < segments` guard kept. -/
noncomputable def sphereTriangles (r : ℝ) (n : ℕ) : List (Tri (Vec3 ℝ)) :=
  let verts := sphereVertices r n
  let d : Vec3 ℝ := ⟨0, 0, 0⟩
  (List.range n).flatMap fun i => (List.range n).flatMap fun j =>
    if i < n then
      [(verts.getD (i * n + j) d, verts.getD ((i + 1) * n + j) d,
        verts.getD (i * n + (j + 1) % n) d),
       (verts.getD (i * n + (j + 1) % n) d, verts.getD ((i + 1) * n + j) d,
        verts.getD ((i + 1) * n + (j + 1) % n) d)]
    else []

/-- Translation of `generate_sphere`: the segment count is clamped to
[6, 128] first, then the mesh is built and serialized. -/
noncomputable def generate_sphere (radius : ℝ) (segments : ℤ) :
    String × Metadata ℝ :=
  let n := (max 6 (min segments 128)).toNat
  let triangles := sphereTriangles radius n
  (generate_stl_content Real.sqrt triangles,
   { model_type := "sphere"
     dimensions := [("radius", radius), ("segments", (n : ℝ))]
     triangles := triangles.length })

end RealShapes

/-! Derived geometric notions used to state the claims. -/

/-- Unnormalized right-hand-rule normal of a triangle:
`(v2 − v1) × (v3 − v1)`. -/
def triCross {α : Type} [CommRing α] (t : Tri (Vec3 α)) : Vec3 α :=
  (t.2.1.sub t.1).cross (t.2.2.sub t.1)

/-- Centroid of a triangle. -/
def triCentroid {α : Type} [Field α] (t : Tri (Vec3 α)) : Vec3 α :=
  ⟨(t.1.x + t.2.1.x + t.2.2.x) / 3,
   (t.1.y + t.2.1.y + t.2.2.y) / 3,
   (t.1.z + t.2.1.z + t.2.2.z) / 3⟩

/-- Center of the cube of a given size. -/
def cubeCenter (size : ℚ) : Vec3 ℚ := ⟨size / 2, size / 2, size / 2⟩

/-- Outwardness measure of a cube triangle: the dot product of its
right-hand-rule normal with the direction from the cube center to the
triangle centroid.  Positive means the normal points out of the (convex)
cube, negative means it points into it. -/
def cubeOutwardness (size : ℚ) (t : Tri (Vec3 ℚ)) : ℚ :=
  (triCross t).dot ((triCentroid t).sub (cubeCenter size))

/-- Winding measure of a cylinder lateral triangle: the dot product of its
right-hand-rule normal with the outward radial direction (the centroid's
horizontal offset from the z-axis).  Positive means the triangle winds
outward, negative inward. -/
noncomputable def windDot (t : Tri (Vec3 ℝ)) : ℝ :=
  (triCross t).dot ⟨(triCentroid t).x, (triCentroid t).y, 0⟩

/-- Directed edges of a triangle, in traversal order. -/
def triEdges {V : Type} (t : Tri V) : List (V × V) :=
  [(t.1, t.2.1), (t.2.1, t.2.2), (t.2.2, t.1)]

/-- Directed edge list of a mesh: the three directed edges of every
triangle, concatenated. -/
def meshEdges {V : Type} (ts : List (Tri V)) : List (V × V) :=
  ts.flatMap triEdges

/-- Number of occurrences of an element in a list. -/
def countOcc {V : Type} [DecidableEq V] (e : V) : List V → ℕ
  | [] => 0
  | x :: xs => (if x = e then 1 else 0) + countOcc e xs

/-- Watertight 2-manifold property of a triangle list: every directed edge
occurs exactly once, and its reversal also occurs exactly once — i.e. every
undirected edge is shared by exactly two triangles traversing it in
opposite directions. -/
def manifoldMesh {V : Type} [DecidableEq V] (ts : List (Tri V)) : Prop :=
  ∀ e ∈ meshEdges ts, countOcc e (meshEdges ts) = 1 ∧ countOcc e.swap (meshEdges ts) = 1

/-- Corner of the cube addressed by three booleans: each true coordinate
sits at `size`, each false one at 0. -/
def cornerPt (size : ℚ) (b : Bool × Bool × Bool) : Vec3 ℚ :=
  ⟨cond b.1 size 0, cond b.2.1 size 0, cond b.2.2 size 0⟩

/-- Face list of the cube re-indexed by corner booleans (x, y, z), matching
`cubeFaces` entry by entry through the vertex table of `generate_cube`. -/
def cubeFacesB : List (Tri (Bool × Bool × Bool)) :=
  [((false, false, false), (true, false, false), (true, true, false)),
   ((false, false, false), (true, true, false), (false, true, false)),
   ((false, false, true), (true, true, true), (true, false, true)),
   ((false, false, true), (false, true, true), (true, true, true)),
   ((false, false, false), (false, false, true), (true, false, true)),
   ((false, false, false), (true, false, true), (true, false, false)),
   ((true, true, false), (true, true, true), (false, true, true)),
   ((true, true, false), (false, true, true), (false, true, false)),
   ((false, false, false), (false, true, false), (false, true, true)),
   ((false, false, false), (false, true, true), (false, false, true)),
   ((true, false, false), (true, false, true), (true, true, true)),
   ((true, false, false), (true, true, true), (true, true, false))]

/-- Corner points of vertical seam `k` of the hollow box: the outer corner
column (`ext k`, `ext (k+4)`) together with the matching inner corner
column (`int k`, `int (k+4)`).  Seam 0 is the seam nearest the origin. -/
def seamCorners (length width height t : ℚ) (k : ℕ) : List (Vec3 ℚ) :=
  [(extVertices length width height).getD k ⟨0, 0, 0⟩,
   (extVertices length width height).getD (k + 4) ⟨0, 0, 0⟩,
   (intVertices length width height t).getD k ⟨0, 0, 0⟩,
   (intVertices length width height t).getD (k + 4) ⟨0, 0, 0⟩]

/-- Triangle lies entirely along seam `k`: all of its vertices are corner
points of that seam. -/
def onSeam (length width height t : ℚ) (k : ℕ) (tri : Tri (Vec3 ℚ)) : Prop :=
  ∀ v ∈ triVerts tri, v ∈ seamCorners length width height t k

/-- Triangle touches seam `k`: at least one of its vertices is a corner
point of that seam. -/
def touchesSeam (length width height t : ℚ) (k : ℕ) (tri : Tri (Vec3 ℚ)) : Prop :=
  ∃ v ∈ triVerts tri, v ∈ seamCorners length width height t k

/-- Concatenation of lines, each terminated by a newline. -/
def joinLines : List String → String
  | [] => ""
  | l :: ls => l ++ "\n" ++ joinLines ls

/-- Facet block of one triangle as the specification's grammar describes it:
facet-normal line (2-space indent), outer-loop marker (4-space indent), three
vertex lines in v1, v2, v3 order with x, y, z coordinates (6-space indent),
loop close and facet close markers. -/
def specFacetLines {α : Type} [LinearOrderedField α] [FloorRing α]
    (sqrtFn : α → α) (t : Tri (Vec3 α)) : List String :=
  let n := calculate_normal sqrtFn t.1 t.2.1 t.2.2
  ["  facet normal " ++ formatFixed6 n.x ++ " " ++ formatFixed6 n.y
     ++ " " ++ formatFixed6 n.z,
   "    outer loop",
   "      vertex " ++ formatFixed6 t.1.x ++ " " ++ formatFixed6 t.1.y
     ++ " " ++ formatFixed6 t.1.z,
   "      vertex " ++ formatFixed6 t.2.1.x ++ " " ++ formatFixed6 t.2.1.y
     ++ " " ++ formatFixed6 t.2.1.z,
   "      vertex " ++ formatFixed6 t.2.2.x ++ " " ++ formatFixed6 t.2.2.y
     ++ " " ++ formatFixed6 t.2.2.z,
   "    endloop",
   "  endfacet"]

/-- Line sequence of the whole file as the specification's grammar describes
it: header line, facet blocks in triangle order, footer line. -/
def specStlLines {α : Type} [LinearOrderedField α] [FloorRing α]
    (sqrtFn : α → α) (ts : List (Tri (Vec3 α))) : List String :=
  "solid modelo3d" :: (ts.flatMap (specFacetLines sqrtFn) ++ ["endsolid modelo3d"])

/-- Rendering of the specification's grammar: every line terminated by a
newline.  This definition follows the claim's words and is compared with the
source translation `generate_stl_content`. -/
def specStlText {α : Type} [LinearOrderedField α] [FloorRing α]
    (sqrtFn : α → α) (ts : List (Tri (Vec3 α))) : String :=
  joinLines (specStlLines sqrtFn ts)

/-- Fixed-point field shape: the string splits at a decimal point into a
prefix without any further point and exactly six digit characters after it. -/
def sixFracDigits (s : String) : Prop :=
  ∃ pre post : String, s = pre ++ "." ++ post ∧ post.length = 6 ∧
    (∀ c ∈ post.data, c.isDigit = true) ∧ (∀ c ∈ pre.data, c ≠ '.')

/-! Helper lemmas. -/

lemma str_append_assoc (a b c : String) : a ++ b ++ c = a ++ (b ++ c) := by
  apply String.ext
  show a.data ++ b.data ++ c.data = a.data ++ (b.data ++ c.data)
  exact List.append_assoc _ _ _

lemma ratSqrt_sq (q : ℚ) (hq : 0 ≤ q) : Rat.sqrt (q * q) = q := by
  rw [Rat.sqrt_eq, abs_of_nonneg hq]

lemma calc_normal_first :
    calculate_normal Rat.sqrt ⟨0, 0, 0⟩ ⟨10, 0, 0⟩ ⟨10, 10, 0⟩ = (⟨0, 0, 1⟩ : Vec3 ℚ) := by
  have h : Rat.sqrt 10000 = 100 := by
    have h2 : (10000 : ℚ) = 100 * 100 := by norm_num
    rw [h2, ratSqrt_sq] ; norm_num
  simp only [calculate_normal, Vec3.sub, Vec3.cross]
  norm_num [h]

lemma roundHalfEven_intCast (n : ℤ) : roundHalfEven ((n : ℚ)) = n := by
  simp only [roundHalfEven, Int.floor_intCast]
  norm_num

lemma formatFixed6_intCast (n : ℤ) :
    formatFixed6 ((n : ℚ)) = (if n < 0 then "-" else "") ++ natLit n.natAbs ++ ".000000" := by
  have h1 : ((n : ℚ)) * 1000000 = ((n * 1000000 : ℤ) : ℚ) := by push_cast; ring
  have h2 : (n * 1000000).natAbs = n.natAbs * 1000000 := by
    rw [Int.natAbs_mul]; rfl
  have h3 : n.natAbs * 1000000 / 1000000 = n.natAbs := by omega
  have h4 : n.natAbs * 1000000 % 1000000 = 0 := by omega
  simp only [formatFixed6, h1, roundHalfEven_intCast, h2, h3, h4]
  simp only [Int.cast_lt_zero]
  have h6 : ("." : String) ++ fracPart6 0 = ".000000" := by decide
  rw [str_append_assoc, str_append_assoc, h6, ← str_append_assoc]

lemma formatFixed6_zero : formatFixed6 (0 : ℚ) = "0.000000" := by
  have := formatFixed6_intCast 0
  norm_num at this
  rw [this]; decide

lemma formatFixed6_one : formatFixed6 (1 : ℚ) = "1.000000" := by
  have := formatFixed6_intCast 1
  norm_num at this
  rw [this]; decide

lemma formatFixed6_ten : formatFixed6 (10 : ℚ) = "10.000000" := by
  have := formatFixed6_intCast 10
  norm_num at this
  rw [this]; decide

lemma facet_line_first :
    facet_normal_line Rat.sqrt ⟨0, 0, 0⟩ ⟨10, 0, 0⟩ ⟨10, 10, 0⟩
      = "  facet normal 0.000000 0.000000 1.000000\n" := by
  simp only [facet_normal_line, calc_normal_first, formatFixed6_zero, formatFixed6_one]
  decide

lemma cubeTriangles_eq_cornerPt (size : ℚ) :
    cubeTriangles size
      = cubeFacesB.map fun f => (cornerPt size f.1, cornerPt size f.2.1, cornerPt size f.2.2) :=
  rfl

lemma cond_size_inj (size : ℚ) (h : size ≠ 0) (a b : Bool)
    (hab : cond a size 0 = cond b size 0) : a = b := by
  cases a <;> cases b <;> simp only [Bool.cond_true, Bool.cond_false] at hab <;>
    first | rfl | exact absurd hab.symm h | exact absurd hab h

lemma cornerPt_inj (size : ℚ) (h : size ≠ 0) : Function.Injective (cornerPt size) := by
  rintro ⟨a1, a2, a3⟩ ⟨b1, b2, b3⟩ hab
  simp only [cornerPt, Vec3.mk.injEq] at hab
  obtain ⟨h1, h2, h3⟩ := hab
  simp only [Prod.mk.injEq]
  exact ⟨cond_size_inj size h _ _ h1, cond_size_inj size h _ _ h2,
    cond_size_inj size h _ _ h3⟩

lemma meshEdges_map {V W : Type} (f : V → W) (ts : List (Tri V)) :
    meshEdges (ts.map fun t => (f t.1, f t.2.1, f t.2.2))
      = (meshEdges ts).map (Prod.map f f) := by
  induction ts with
  | nil => rfl
  | cons t ts ih =>
    simp only [meshEdges] at ih ⊢
    simp [List.flatMap_cons, ih, triEdges, Prod.map]

lemma countOcc_map {V W : Type} [DecidableEq V] [DecidableEq W] (f : V → W)
    (hf : Function.Injective f) (l : List V) (x : V) :
    countOcc (f x) (l.map f) = countOcc x l := by
  induction l with
  | nil => rfl
  | cons a l ih => simp [countOcc, hf.eq_iff, ih]

lemma cubeFacesB_manifold : manifoldMesh cubeFacesB := by
  unfold manifoldMesh
  decide

lemma windDot_side1 (r h : ℝ) (n i : ℕ) :
    windDot (sideTri1 r h n i)
      = h * r ^ 2 * (Real.sin (cylAngle n i) * Real.cos (cylAngle n ((i + 1) % n))
          - Real.cos (cylAngle n i) * Real.sin (cylAngle n ((i + 1) % n))) := by
  simp only [windDot, sideTri1, base_inferior, base_superior, triCross, triCentroid,
    Vec3.sub, Vec3.cross, Vec3.dot]
  ring

lemma windDot_side2 (r h : ℝ) (n i : ℕ) :
    windDot (sideTri2 r h n i)
      = h * r ^ 2 * (Real.sin (cylAngle n i) * Real.cos (cylAngle n ((i + 1) % n))
          - Real.cos (cylAngle n i) * Real.sin (cylAngle n ((i + 1) % n))) := by
  simp only [windDot, sideTri2, base_inferior, base_superior, triCross, triCentroid,
    Vec3.sub, Vec3.cross, Vec3.dot]
  ring

lemma sin_angle_step (n i : ℕ) (h2 : 2 ≤ n) (hi : i < n) :
    Real.sin (cylAngle n i) * Real.cos (cylAngle n ((i + 1) % n))
      - Real.cos (cylAngle n i) * Real.sin (cylAngle n ((i + 1) % n))
      = -Real.sin (2 * Real.pi / n) := by
  have hn : (n : ℝ) ≠ 0 := by positivity
  rcases Nat.lt_or_ge (i + 1) n with hlt | hge
  · rw [Nat.mod_eq_of_lt hlt, ← Real.sin_sub]
    have hd : cylAngle n i - cylAngle n (i + 1) = -(2 * Real.pi / n) := by
      unfold cylAngle
      push_cast
      field_simp
      ring
    rw [hd, Real.sin_neg]
  · have hin : i + 1 = n := by omega
    rw [hin, Nat.mod_self]
    have h0 : cylAngle n 0 = 0 := by
      unfold cylAngle; simp
    have hθ : cylAngle n i = 2 * Real.pi - 2 * Real.pi / n := by
      unfold cylAngle
      have hi' : (i : ℝ) = (n : ℝ) - 1 := by
        have : (i : ℝ) + 1 = (n : ℝ) := by exact_mod_cast congrArg Nat.cast hin
        linarith
      rw [hi']
      field_simp
      ring
    rw [h0, hθ, Real.cos_zero, Real.sin_zero, Real.sin_sub, Real.sin_two_pi, Real.cos_two_pi]
    ring

lemma sin_step_pos (n : ℕ) (h6 : 6 ≤ n) : 0 < Real.sin (2 * Real.pi / n) := by
  have hn : (0 : ℝ) < n := by positivity
  apply Real.sin_pos_of_pos_of_lt_pi
  · positivity
  · rw [div_lt_iff₀ hn]
    have h6' : (6 : ℝ) ≤ n := by exact_mod_cast h6
    nlinarith [Real.pi_pos, mul_le_mul_of_nonneg_left h6' (le_of_lt Real.pi_pos)]

lemma windDot_sides_neg (r h : ℝ) (n i : ℕ) (hr : 0 < r) (hh : 0 < h)
    (h6 : 6 ≤ n) (hi : i < n) :
    windDot (sideTri1 r h n i) < 0 ∧ windDot (sideTri2 r h n i) < 0 := by
  have hs := sin_step_pos n h6
  have hstep := sin_angle_step n i (by omega) hi
  have hpos : 0 < h * r ^ 2 * Real.sin (2 * Real.pi / n) :=
    mul_pos (mul_pos hh (pow_pos hr 2)) hs
  constructor
  · rw [windDot_side1, hstep, mul_neg, neg_lt_zero]
    exact hpos
  · rw [windDot_side2, hstep, mul_neg, neg_lt_zero]
    exact hpos



lemma length_flatMap_const {α β : Type} (l : List α) (f : α → List β) (k : ℕ)
    (h : ∀ a ∈ l, (f a).length = k) : (l.flatMap f).length = l.length * k := by
  induction l with
  | nil => simp
  | cons a l ih =>
    have ha := h a (by simp)
    have ih' := ih fun x hx => h x (by simp [hx])
    simp only [List.flatMap_cons, List.length_append, List.length_cons, ha, ih']
    ring

lemma cylinderTriangles_length (r h : ℝ) (n : ℕ) :
    (cylinderTriangles r h n).length = 4 * n := by
  unfold cylinderTriangles
  rw [List.length_append, List.length_append, List.length_map, List.length_map,
    List.length_range, length_flatMap_const (List.range n)
      (fun i => [sideTri1 r h n i, sideTri2 r h n i]) 2 (fun a _ => rfl), List.length_range]
  ring

lemma sphereTriangles_length (r : ℝ) (n : ℕ) :
    (sphereTriangles r n).length = 2 * n * n := by
  unfold sphereTriangles
  dsimp only
  rw [length_flatMap_const _ _ (n * 2) (fun i hi => by
    rw [length_flatMap_const _ _ 2 (fun j hj => by
      rw [if_pos (List.mem_range.1 hi)]; rfl), List.length_range]), List.length_range]
  ring

lemma cyl_metadata_tris (r h : ℝ) (s : ℤ) :
    (generate_cylinder r h s).2.triangles
      = (cylinderTriangles r h ((max 6 (min s 256)).toNat)).length := rfl

lemma sph_metadata_tris (r : ℝ) (s : ℤ) :
    (generate_sphere r s).2.triangles
      = (sphereTriangles r ((max 6 (min s 128)).toNat)).length := rfl

lemma cyl_clamp_eq (r h : ℝ) (s : ℤ) :
    generate_cylinder r h s = generate_cylinder r h (max 6 (min s 256)) := by
  unfold generate_cylinder
  have hc : max 6 (min (max 6 (min s 256)) 256) = max 6 (min s 256) := by omega
  rw [hc]

lemma sph_clamp_eq (r : ℝ) (s : ℤ) :
    generate_sphere r s = generate_sphere r (max 6 (min s 128)) := by
  unfold generate_sphere
  have hc : max 6 (min (max 6 (min s 128)) 128) = max 6 (min s 128) := by omega
  rw [hc]

lemma str_data_append (a b : String) : (a ++ b).data = a.data ++ b.data := rfl

lemma joinLines_append (l1 l2 : List String) :
    joinLines (l1 ++ l2) = joinLines l1 ++ joinLines l2 := by
  induction l1 with
  | nil =>
    apply String.ext
    show (joinLines l2).data = [] ++ (joinLines l2).data
    rfl
  | cons a l ih =>
    simp only [List.cons_append, joinLines]
    have ih' : joinLines (l.append l2) = joinLines l ++ joinLines l2 := ih
    rw [ih', ← str_append_assoc]

lemma write_triangle_eq_lines {α : Type} [LinearOrderedField α] [FloorRing α]
    (sqrtFn : α → α) (t : Tri (Vec3 α)) :
    write_triangle sqrtFn t.1 t.2.1 t.2.2 = joinLines (specFacetLines sqrtFn t) := by
  apply String.ext
  simp only [write_triangle, facet_normal_line, vertex_line, specFacetLines, joinLines,
    str_data_append, List.append_assoc, List.append_nil]
  rfl

lemma stlBody_eq_lines {α : Type} [LinearOrderedField α] [FloorRing α]
    (sqrtFn : α → α) (ts : List (Tri (Vec3 α))) :
    stlBody sqrtFn ts = joinLines (ts.flatMap (specFacetLines sqrtFn)) := by
  induction ts with
  | nil => rfl
  | cons t ts ih =>
    simp only [stlBody, List.flatMap_cons, joinLines_append, ih,
      write_triangle_eq_lines]

lemma stl_content_eq_spec {α : Type} [LinearOrderedField α] [FloorRing α]
    (sqrtFn : α → α) (ts : List (Tri (Vec3 α))) :
    generate_stl_content sqrtFn ts = specStlText sqrtFn ts := by
  apply String.ext
  simp only [generate_stl_content, specStlText, specStlLines, joinLines, joinLines_append,
    stlBody_eq_lines, create_stl_header, create_stl_footer, str_data_append,
    List.append_assoc]
  rfl

lemma digChar_isDigit (n : ℕ) : (digChar n).isDigit = true := by
  rcases n with _|_|_|_|_|_|_|_|_|n <;> rfl

lemma natDigitsAux_all_digits :
    ∀ fuel n : ℕ, ∀ c ∈ natDigitsAux fuel n, c.isDigit = true := by
  intro fuel
  induction fuel with
  | zero => intro n c hc; simp [natDigitsAux] at hc
  | succ fuel ih =>
    intro n c hc
    simp only [natDigitsAux] at hc
    by_cases h : n < 10
    · rw [if_pos h] at hc
      simp at hc
      subst hc
      exact digChar_isDigit n
    · rw [if_neg h] at hc
      rcases List.mem_append.1 hc with h1 | h1
      · exact ih (n / 10) c h1
      · simp at h1
        subst h1
        exact digChar_isDigit (n % 10)

lemma natDigitsAux_length :
    ∀ fuel n d : ℕ, n < fuel → n < 10 ^ d → 1 ≤ d →
      (natDigitsAux fuel n).length ≤ d := by
  intro fuel
  induction fuel with
  | zero => intro n d h; omega
  | succ fuel ih =>
    intro n d hfuel hd hd1
    simp only [natDigitsAux]
    by_cases h : n < 10
    · rw [if_pos h]
      simpa using hd1
    · rw [if_neg h]
      rw [List.length_append]
      have hd2 : 2 ≤ d := by
        by_contra hlt
        have : d = 1 := by omega
        subst this
        simp at hd
        omega
      have hdiv : n / 10 < 10 ^ (d - 1) := by
        have h10 : (10 : ℕ) ^ d = 10 ^ (d - 1) * 10 := by
          rw [← pow_succ]
          congr 1
          omega
        rw [h10] at hd
        omega
      have := ih (n / 10) (d - 1) (by omega) hdiv (by omega)
      simp only [List.length_cons, List.length_nil]
      omega

lemma natLit_length_le (n d : ℕ) (h : n < 10 ^ d) (hd : 1 ≤ d) :
    (natLit n).length ≤ d :=
  natDigitsAux_length (n + 1) n d (Nat.lt_succ_self n) h hd

lemma natLit_all_digits (n : ℕ) : ∀ c ∈ (natLit n).data, c.isDigit = true :=
  fun c hc => natDigitsAux_all_digits (n + 1) n c hc

lemma fracPart6_length (n : ℕ) (h : n < 1000000) : (fracPart6 n).length = 6 := by
  have hle : (natLit n).length ≤ 6 := natLit_length_le n 6 (by norm_num at h ⊢; omega) (by norm_num)
  show (List.replicate (6 - (natLit n).length) '0' ++ (natLit n).data).length = 6
  rw [List.length_append, List.length_replicate]
  have : (natLit n).data.length = (natLit n).length := rfl
  omega

lemma fracPart6_all_digits (n : ℕ) : ∀ c ∈ (fracPart6 n).data, c.isDigit = true := by
  intro c hc
  rcases List.mem_append.1 hc with h1 | h1
  · rw [List.eq_of_mem_replicate h1]
    rfl
  · exact natLit_all_digits n c h1

lemma formatFixed6_sixFracDigits {α : Type} [LinearOrderedField α] [FloorRing α]
    (v : α) : sixFracDigits (formatFixed6 v) := by
  refine ⟨(if v < 0 then "-" else "") ++ natLit ((roundHalfEven (v * 1000000)).natAbs / 1000000),
    fracPart6 ((roundHalfEven (v * 1000000)).natAbs % 1000000), ?_, ?_, ?_, ?_⟩
  · rfl
  · exact fracPart6_length _ (Nat.mod_lt _ (by norm_num))
  · exact fracPart6_all_digits _
  · intro c hc
    have hdig : c ∈ (natLit ((roundHalfEven (v * 1000000)).natAbs / 1000000)).data → c ≠ '.' := by
      intro h1 heq
      have := natLit_all_digits _ c h1
      subst heq
      simp at this
    by_cases hv : v < 0
    · rw [if_pos hv] at hc
      rcases List.mem_append.1 hc with h1 | h1
      · simp at h1
        subst h1
        decide
      · exact hdig h1
    · rw [if_neg hv] at hc
      rcases List.mem_append.1 hc with h1 | h1
      · simp at h1
      · exact hdig h1

lemma ratSqrt_zero : Rat.sqrt 0 = 0 := by
  have h := ratSqrt_sq 0 le_rfl
  simp only [mul_zero] at h
  exact h

lemma degenerate_normal_eq_zero (v1 v2 v3 : Vec3 ℚ)
    (hcol : (v2.sub v1).cross (v3.sub v1) = ⟨0, 0, 0⟩) :
    calculate_normal Rat.sqrt v1 v2 v3 = ⟨0, 0, 0⟩ := by
  simp only [calculate_normal, hcol]
  norm_num [ratSqrt_zero]

lemma degenerate_facet_line (v1 v2 v3 : Vec3 ℚ)
    (hcol : (v2.sub v1).cross (v3.sub v1) = ⟨0, 0, 0⟩) :
    facet_normal_line Rat.sqrt v1 v2 v3
      = "  facet normal 0.000000 0.000000 0.000000\n" := by
  simp only [facet_normal_line, degenerate_normal_eq_zero v1 v2 v3 hcol, formatFixed6_zero]
  decide

lemma collinear_example :
    ((⟨1, 1, 1⟩ : Vec3 ℚ).sub ⟨0, 0, 0⟩).cross ((⟨2, 2, 2⟩ : Vec3 ℚ).sub ⟨0, 0, 0⟩)
      = ⟨0, 0, 0⟩ := by
  norm_num [Vec3.sub, Vec3.cross]

lemma stitch_on_front_seams (l w h t : ℚ) :
    ∀ tri ∈ stitchTriangles l w h t,
      onSeam l w h t 0 tri ∨ onSeam l w h t 1 tri := by
  intro tri htri
  fin_cases htri
  · left
    intro v hv
    fin_cases hv <;> simp [seamCorners, extVertices, intVertices]
  · left
    intro v hv
    fin_cases hv <;> simp [seamCorners, extVertices, intVertices]
  · right
    intro v hv
    fin_cases hv <;> simp [seamCorners, extVertices, intVertices]
  · right
    intro v hv
    fin_cases hv <;> simp [seamCorners, extVertices, intVertices]

lemma stitch_misses_back_seams (l w h t : ℚ) (_hl : 0 < l) (_hw : 0 < w)
    (_hh : 0 < h) (ht0 : 0 < t) (ht : t < min l w / 2) :
    ∀ tri ∈ stitchTriangles l w h t,
      ¬ touchesSeam l w h t 2 tri ∧ ¬ touchesSeam l w h t 3 tri := by
  have hml : min l w ≤ l := min_le_left l w
  have hmw : min l w ≤ w := min_le_right l w
  have htl : 2 * t < l := by linarith
  have htw : 2 * t < w := by linarith
  intro tri htri
  fin_cases htri <;>
    refine ⟨fun ⟨v, hv, hc⟩ => ?_, fun ⟨v, hv, hc⟩ => ?_⟩ <;>
    · fin_cases hv <;>
      · simp only [seamCorners, extVertices, intVertices, List.getD_cons_zero,
          List.getD_cons_succ, List.mem_cons, List.not_mem_nil, or_false,
          Vec3.mk.injEq] at hc
        rcases hc with ⟨h1, h2, h3⟩ | ⟨h1, h2, h3⟩ | ⟨h1, h2, h3⟩ | ⟨h1, h2, h3⟩ <;>
          linarith

lemma stitch_second_seam_eval :
    (stitchTriangles 20 15 10 2).getD 2 (⟨0, 0, 0⟩, ⟨0, 0, 0⟩, ⟨0, 0, 0⟩)
        = ((⟨20, 0, 0⟩ : Vec3 ℚ), (⟨20, 0, 10⟩ : Vec3 ℚ), (⟨18, 2, 2⟩ : Vec3 ℚ)) ∧
    touchesSeam 20 15 10 2 1 ((⟨20, 0, 0⟩ : Vec3 ℚ), ⟨20, 0, 10⟩, ⟨18, 2, 2⟩) ∧
    ¬ onSeam 20 15 10 2 0 ((⟨20, 0, 0⟩ : Vec3 ℚ), ⟨20, 0, 10⟩, ⟨18, 2, 2⟩) := by
  refine ⟨?_, ?_, ?_⟩
  · norm_num [stitchTriangles, extVertices, intVertices, Prod.ext_iff, Vec3.mk.injEq]
  · refine ⟨⟨20, 0, 0⟩, by simp [triVerts], ?_⟩
    norm_num [seamCorners, extVertices, intVertices]
  · intro hall
    have := hall ⟨20, 0, 0⟩ (by simp [triVerts])
    norm_num [seamCorners, extVertices, intVertices, Vec3.mk.injEq] at this

lemma generate_cube_neg_eval :
    ¬ cubeParamsValid (-1) ∧ (generate_cube (-1)).2.triangles = 12 ∧
    (generate_cube (-1)).1
      = create_stl_header ++ stlBody Rat.sqrt (cubeTriangles (-1)) ++ create_stl_footer := by
  refine ⟨?_, rfl, rfl⟩
  intro hv
  have := hv.1
  norm_num [cubeParamsValid] at this

lemma cube_first_facet_eval :
    (cubeTriangles 10).getD 0 (⟨0, 0, 0⟩, ⟨0, 0, 0⟩, ⟨0, 0, 0⟩)
        = ((⟨0, 0, 0⟩ : Vec3 ℚ), (⟨10, 0, 0⟩ : Vec3 ℚ), (⟨10, 10, 0⟩ : Vec3 ℚ)) ∧
    (generate_cube 10).1
      = create_stl_header
          ++ write_triangle Rat.sqrt ⟨0, 0, 0⟩ ⟨10, 0, 0⟩ ⟨10, 10, 0⟩
          ++ (stlBody Rat.sqrt ((cubeTriangles 10).drop 1) ++ create_stl_footer) := by
  constructor
  · rfl
  · show create_stl_header ++ stlBody Rat.sqrt (cubeTriangles 10) ++ create_stl_footer = _
    conv_lhs => rw [show cubeTriangles 10
      = ((⟨0, 0, 0⟩ : Vec3 ℚ), (⟨10, 0, 0⟩ : Vec3 ℚ), (⟨10, 10, 0⟩ : Vec3 ℚ))
          :: (cubeTriangles 10).drop 1 from rfl]
    simp only [stlBody]
    exact (str_append_assoc create_stl_header
        (write_triangle Rat.sqrt ⟨0, 0, 0⟩ ⟨10, 0, 0⟩ ⟨10, 10, 0⟩
          ++ stlBody Rat.sqrt ((cubeTriangles 10).drop 1)) create_stl_footer).trans
      ((congrArg (fun s => create_stl_header ++ s)
        (str_append_assoc (write_triangle Rat.sqrt ⟨0, 0, 0⟩ ⟨10, 0, 0⟩ ⟨10, 10, 0⟩)
          (stlBody Rat.sqrt ((cubeTriangles 10).drop 1)) create_stl_footer)).trans
      (str_append_assoc create_stl_header
        (write_triangle Rat.sqrt ⟨0, 0, 0⟩ ⟨10, 0, 0⟩ ⟨10, 10, 0⟩)
        (stlBody Rat.sqrt ((cubeTriangles 10).drop 1) ++ create_stl_footer)).symm)

lemma sideTri_mem (r h : ℝ) (n i : ℕ) (hi : i < n) :
    sideTri1 r h n i ∈ cylinderTriangles r h n ∧
    sideTri2 r h n i ∈ cylinderTriangles r h n := by
  unfold cylinderTriangles
  constructor <;>
  · apply List.mem_append_right
    rw [List.mem_flatMap]
    exact ⟨i, List.mem_range.2 hi, by simp⟩

/-! Claim theorems. -/

/-- Claim C1, counterexample: for cube(10.0) the first triangle is the
bottom-face triangle (0,0,0),(10,0,0),(10,10,0) and its serialized
facet-normal line reads 0.000000 0.000000 1.000000 — not the
0.000000 0.000000 -1.000000 the claim states; the serialized content begins
with exactly this facet block. -/
theorem cube_first_facet_normal_points_up :
    (cubeTriangles 10).getD 0 (⟨0, 0, 0⟩, ⟨0, 0, 0⟩, ⟨0, 0, 0⟩)
        = ((⟨0, 0, 0⟩ : Vec3 ℚ), (⟨10, 0, 0⟩ : Vec3 ℚ), (⟨10, 10, 0⟩ : Vec3 ℚ)) ∧
    (generate_cube 10).1
      = create_stl_header
          ++ write_triangle Rat.sqrt ⟨0, 0, 0⟩ ⟨10, 0, 0⟩ ⟨10, 10, 0⟩
          ++ (stlBody Rat.sqrt ((cubeTriangles 10).drop 1) ++ create_stl_footer) ∧
    facet_normal_line Rat.sqrt ⟨0, 0, 0⟩ ⟨10, 0, 0⟩ ⟨10, 10, 0⟩
      = "  facet normal 0.000000 0.000000 1.000000\n" ∧
    facet_normal_line Rat.sqrt ⟨0, 0, 0⟩ ⟨10, 0, 0⟩ ⟨10, 10, 0⟩
      ≠ "  facet normal 0.000000 0.000000 -1.000000\n" := by
  refine ⟨cube_first_facet_eval.1, cube_first_facet_eval.2, facet_line_first, ?_⟩
  rw [facet_line_first]
  decide

/-- Claim C1, amended: for every size > 0 each of the 12 cube triangles is
wound so that its right-hand-rule normal points into the cube (negative dot
product with the direction from the cube center to the triangle centroid),
and for cube(10.0) the first facet, the bottom-face triangle
(0,0,0),(10,0,0),(10,10,0), carries the facet-normal line
0.000000 0.000000 1.000000. -/
theorem cube_normals_point_inward (size : ℚ) (hs : 0 < size) :
    (∀ t ∈ cubeTriangles size, cubeOutwardness size t < 0) ∧
    facet_normal_line Rat.sqrt ⟨0, 0, 0⟩ ⟨10, 0, 0⟩ ⟨10, 10, 0⟩
      = "  facet normal 0.000000 0.000000 1.000000\n" := by
  refine ⟨?_, facet_line_first⟩
  intro t ht
  fin_cases ht <;>
    simp only [cubeOutwardness, triCross, triCentroid, cubeCenter, cubeVertices,
      List.getD_cons_zero, List.getD_cons_succ, Vec3.sub, Vec3.cross, Vec3.dot] <;>
    nlinarith [hs, mul_pos hs hs, mul_pos (mul_pos hs hs) hs]

/-- Claim C1, witness: the amended theorem applied at size 10. -/
theorem cube_normals_point_inward_witness :
    (0 : ℚ) < 10 ∧
    ((∀ t ∈ cubeTriangles 10, cubeOutwardness 10 t < 0) ∧
      facet_normal_line Rat.sqrt ⟨0, 0, 0⟩ ⟨10, 0, 0⟩ ⟨10, 10, 0⟩
        = "  facet normal 0.000000 0.000000 1.000000\n") :=
  ⟨by norm_num, cube_normals_point_inward 10 (by norm_num)⟩

/-- Claim C2, counterexample: with the valid parameters (20, 15, 10, 2) the
third wall-stitching triangle is (20,0,0),(20,0,10),(18,2,2); it touches the
vertical corner seam at (length, 0) — seam 1 — and does not lie along the
seam nearest the origin, so stitching is not confined to the nearest-origin
seam. -/
theorem stitch_triangle_on_second_seam :
    (stitchTriangles 20 15 10 2).getD 2 (⟨0, 0, 0⟩, ⟨0, 0, 0⟩, ⟨0, 0, 0⟩)
        = ((⟨20, 0, 0⟩ : Vec3 ℚ), (⟨20, 0, 10⟩ : Vec3 ℚ), (⟨18, 2, 2⟩ : Vec3 ℚ)) ∧
    touchesSeam 20 15 10 2 1 ((⟨20, 0, 0⟩ : Vec3 ℚ), ⟨20, 0, 10⟩, ⟨18, 2, 2⟩) ∧
    ¬ onSeam 20 15 10 2 0 ((⟨20, 0, 0⟩ : Vec3 ℚ), ⟨20, 0, 10⟩, ⟨18, 2, 2⟩) :=
  stitch_second_seam_eval

/-- Claim C2, amended: for every valid hollow-box parameter set the
wall-stitching triangles connect the outer shell to the inner shell along
exactly the two vertical corner seams of the front wall — the seam nearest
the origin (seam 0) and the seam at (length, 0) (seam 1); the two back
seams, at (length, width) and (0, width), receive no stitching triangles and
remain open. -/
theorem stitch_only_front_wall_seams (l w h t : ℚ) (hl : 0 < l) (hw : 0 < w)
    (hh : 0 < h) (ht0 : 0 < t) (ht : t < min l w / 2) :
    (∀ tri ∈ stitchTriangles l w h t,
      onSeam l w h t 0 tri ∨ onSeam l w h t 1 tri) ∧
    (∀ tri ∈ stitchTriangles l w h t,
      ¬ touchesSeam l w h t 2 tri ∧ ¬ touchesSeam l w h t 3 tri) :=
  ⟨stitch_on_front_seams l w h t,
   stitch_misses_back_seams l w h t hl hw hh ht0 ht⟩

/-- Claim C2, witness: the amended theorem applied at (20, 15, 10, 2). -/
theorem stitch_only_front_wall_seams_witness :
    (0 : ℚ) < 20 ∧ (0 : ℚ) < 15 ∧ (0 : ℚ) < 10 ∧ (0 : ℚ) < 2 ∧
    (2 : ℚ) < min 20 15 / 2 ∧
    ((∀ tri ∈ stitchTriangles 20 15 10 2,
        onSeam 20 15 10 2 0 tri ∨ onSeam 20 15 10 2 1 tri) ∧
      (∀ tri ∈ stitchTriangles 20 15 10 2,
        ¬ touchesSeam 20 15 10 2 2 tri ∧ ¬ touchesSeam 20 15 10 2 3 tri)) :=
  ⟨by norm_num, by norm_num, by norm_num, by norm_num,
   by rw [min_def]; norm_num,
   stitch_only_front_wall_seams 20 15 10 2 (by norm_num) (by norm_num) (by norm_num)
     (by norm_num) (by rw [min_def]; norm_num)⟩

/-- Claim C3: for every radius > 0, height > 0 and integer segment request,
the cylinder mesh consists of exactly 4 × s triangles, where s is the
segment count clamped to [6, 256], and the triangle count reported in the
metadata equals that number. -/
theorem cylinder_triangle_count (r h : ℝ) (s : ℤ) (_hr : 0 < r) (_hh : 0 < h) :
    (cylinderTriangles r h ((max 6 (min s 256)).toNat)).length
        = 4 * (max 6 (min s 256)).toNat ∧
    (generate_cylinder r h s).2.triangles = 4 * (max 6 (min s 256)).toNat := by
  refine ⟨cylinderTriangles_length r h _, ?_⟩
  rw [cyl_metadata_tris, cylinderTriangles_length]

/-- Claim C3, witness: cylinder(5, 10, 20) reports 80 triangles. -/
theorem cylinder_triangle_count_witness :
    (0 : ℝ) < 5 ∧ (0 : ℝ) < 10 ∧ (generate_cylinder 5 10 20).2.triangles = 80 := by
  refine ⟨by norm_num, by norm_num, ?_⟩
  have h := (cylinder_triangle_count 5 10 20 (by norm_num) (by norm_num)).2
  have hn : ((max 6 (min (20 : ℤ) 256)).toNat) = 20 := by decide
  rw [hn] at h
  rw [h]

/-- Claim C5: for every radius > 0 and integer segment request, the sphere
mesh consists of exactly 2 × s × s triangles, where s is the segment count
clamped to [6, 128] — the degenerate pole triangles included — and the
triangle count reported in the metadata equals that number. -/
theorem sphere_triangle_count (r : ℝ) (s : ℤ) (_hr : 0 < r) :
    (sphereTriangles r ((max 6 (min s 128)).toNat)).length
        = 2 * (max 6 (min s 128)).toNat * (max 6 (min s 128)).toNat ∧
    (generate_sphere r s).2.triangles
        = 2 * (max 6 (min s 128)).toNat * (max 6 (min s 128)).toNat := by
  refine ⟨sphereTriangles_length r _, ?_⟩
  rw [sph_metadata_tris, sphereTriangles_length]

/-- Claim C5, witness: sphere(5, 20) reports 800 triangles. -/
theorem sphere_triangle_count_witness :
    (0 : ℝ) < 5 ∧ (generate_sphere 5 20).2.triangles = 800 := by
  refine ⟨by norm_num, ?_⟩
  have h := (sphere_triangle_count 5 20 (by norm_num)).2
  have hn : ((max 6 (min (20 : ℤ) 128)).toNat) = 20 := by decide
  rw [hn] at h
  rw [h]

/-- Claim C4, counterexample: at radius 1, height 1, 6 segments, the first
lateral triangle of the cylinder wall has negative dot product with the
outward radial direction at its centroid — its right-hand-rule normal does
not point outward. -/
theorem cylinder_lateral_winding_negative_example :
    windDot (sideTri1 1 1 6 0) < 0 ∧ ¬ (0 < windDot (sideTri1 1 1 6 0)) := by
  have h := windDot_sides_neg 1 1 6 0 (by norm_num) (by norm_num) (by norm_num) (by norm_num)
  exact ⟨h.1, lt_asymm h.1⟩

/-- Claim C4, amended: for every radius > 0, height > 0 and integer segment
request (s the count clamped to [6, 256]), each of the 2 × s lateral-surface
triangles of the cylinder is wound inward: both triangles of every wall quad
belong to the mesh and their right-hand-rule normals have negative dot
product with the outward radial direction at the triangle centroid. -/
theorem cylinder_lateral_winds_inward (r h : ℝ) (s : ℤ) (i : ℕ) (hr : 0 < r)
    (hh : 0 < h) (hi : i < (max 6 (min s 256)).toNat) :
    sideTri1 r h ((max 6 (min s 256)).toNat) i
        ∈ cylinderTriangles r h ((max 6 (min s 256)).toNat) ∧
    sideTri2 r h ((max 6 (min s 256)).toNat) i
        ∈ cylinderTriangles r h ((max 6 (min s 256)).toNat) ∧
    windDot (sideTri1 r h ((max 6 (min s 256)).toNat) i) < 0 ∧
    windDot (sideTri2 r h ((max 6 (min s 256)).toNat) i) < 0 := by
  have hmem := sideTri_mem r h ((max 6 (min s 256)).toNat) i hi
  have h6 : 6 ≤ (max 6 (min s 256)).toNat := by omega
  have hneg := windDot_sides_neg r h ((max 6 (min s 256)).toNat) i hr hh h6 hi
  exact ⟨hmem.1, hmem.2, hneg.1, hneg.2⟩

/-- Claim C4, witness: the amended theorem applied at radius 1, height 1,
6 requested segments, first wall quad. -/
theorem cylinder_lateral_winds_inward_witness :
    (0 : ℝ) < 1 ∧ 0 < (max 6 (min (6 : ℤ) 256)).toNat ∧
    (sideTri1 1 1 ((max 6 (min (6 : ℤ) 256)).toNat) 0
        ∈ cylinderTriangles 1 1 ((max 6 (min (6 : ℤ) 256)).toNat) ∧
      sideTri2 1 1 ((max 6 (min (6 : ℤ) 256)).toNat) 0
        ∈ cylinderTriangles 1 1 ((max 6 (min (6 : ℤ) 256)).toNat) ∧
      windDot (sideTri1 1 1 ((max 6 (min (6 : ℤ) 256)).toNat) 0) < 0 ∧
      windDot (sideTri2 1 1 ((max 6 (min (6 : ℤ) 256)).toNat) 0) < 0) :=
  ⟨by norm_num, by decide,
   cylinder_lateral_winds_inward 1 1 6 0 (by norm_num) (by norm_num) (by decide)⟩

/-- Claim C6: the cylinder generator returns exactly the same mesh text and
metadata for a segment request as for its clamp to [6, 256], and the sphere
generator likewise for its clamp to [6, 128]; in particular cylinder with 3
behaves as with 6, with 300 as with 256, and analogously for the sphere. -/
theorem segment_clamping_identity :
    (∀ (r h : ℝ) (s : ℤ),
      generate_cylinder r h s = generate_cylinder r h (max 6 (min s 256))) ∧
    (∀ (r : ℝ) (s : ℤ),
      generate_sphere r s = generate_sphere r (max 6 (min s 128))) :=
  ⟨fun r h s => cyl_clamp_eq r h s, fun r s => sph_clamp_eq r s⟩

/-- Claim C7: for every sequence of triangles the serializer's output is
exactly the line sequence of the grammar — header line, then per triangle a
facet-normal line, outer-loop marker, three vertex lines in v1, v2, v3 order
with x, y, z coordinates, loop close and facet close, then the footer line,
every line newline-terminated with the canonical indentation — and every
numeric field is fixed-point with exactly six digits after the decimal
point. -/
theorem serializer_matches_grammar :
    (∀ {α : Type} [LinearOrderedField α] [FloorRing α] (sqrtFn : α → α)
        (ts : List (Tri (Vec3 α))),
      generate_stl_content sqrtFn ts = specStlText sqrtFn ts) ∧
    (∀ {α : Type} [LinearOrderedField α] [FloorRing α] (v : α),
      sixFracDigits (formatFixed6 v)) :=
  ⟨fun sqrtFn ts => stl_content_eq_spec sqrtFn ts,
   fun v => formatFixed6_sixFracDigits v⟩

/-- Claim C8: for every triangle whose cross product (v2−v1)×(v3−v1) is the
zero vector, the guarded normal computation returns the zero vector (the
division is only performed when the magnitude is strictly positive, and
both functions are total, so no fault is possible) and the serializer emits
the all-zero facet-normal line. -/
theorem degenerate_normal_policy (v1 v2 v3 : Vec3 ℚ)
    (hcol : (v2.sub v1).cross (v3.sub v1) = ⟨0, 0, 0⟩) :
    calculate_normal Rat.sqrt v1 v2 v3 = ⟨0, 0, 0⟩ ∧
    facet_normal_line Rat.sqrt v1 v2 v3
      = "  facet normal 0.000000 0.000000 0.000000\n" :=
  ⟨degenerate_normal_eq_zero v1 v2 v3 hcol, degenerate_facet_line v1 v2 v3 hcol⟩

/-- Claim C8, witness: the collinear triangle (0,0,0),(1,1,1),(2,2,2). -/
theorem degenerate_normal_policy_witness :
    ((⟨1, 1, 1⟩ : Vec3 ℚ).sub ⟨0, 0, 0⟩).cross ((⟨2, 2, 2⟩ : Vec3 ℚ).sub ⟨0, 0, 0⟩)
        = ⟨0, 0, 0⟩ ∧
    calculate_normal Rat.sqrt ⟨0, 0, 0⟩ ⟨1, 1, 1⟩ ⟨2, 2, 2⟩ = ⟨0, 0, 0⟩ ∧
    facet_normal_line Rat.sqrt ⟨0, 0, 0⟩ ⟨1, 1, 1⟩ ⟨2, 2, 2⟩
      = "  facet normal 0.000000 0.000000 0.000000\n" :=
  ⟨collinear_example,
   (degenerate_normal_policy ⟨0, 0, 0⟩ ⟨1, 1, 1⟩ ⟨2, 2, 2⟩ collinear_example).1,
   (degenerate_normal_policy ⟨0, 0, 0⟩ ⟨1, 1, 1⟩ ⟨2, 2, 2⟩ collinear_example).2⟩

/-- Claim C9, counterexample: for the non-positive size −1 the generator
does not refuse: it returns the full 12-triangle metadata and a complete
serialized mesh; only the external validator rejects −1 (its range is
0.1 ≤ size ≤ 500). -/
theorem generator_accepts_nonpositive_size :
    ¬ cubeParamsValid (-1) ∧ (generate_cube (-1)).2.triangles = 12 ∧
    (generate_cube (-1)).1
      = create_stl_header ++ stlBody Rat.sqrt (cubeTriangles (-1)) ++ create_stl_footer :=
  generate_cube_neg_eval

/-- Claim C9, amended: the generator itself performs no dimension guard:
for every size ≤ 0 it still returns the full 12-triangle mesh and metadata;
non-positive dimensions are excluded solely by the external validator
(CubeParams, 0.1 ≤ size ≤ 500). -/
theorem generator_has_no_dimension_guard (size : ℚ) (hs : size ≤ 0) :
    ¬ cubeParamsValid size ∧ (generate_cube size).2.triangles = 12 ∧
    (generate_cube size).1
      = create_stl_header ++ stlBody Rat.sqrt (cubeTriangles size) ++ create_stl_footer := by
  refine ⟨fun hv => ?_, rfl, rfl⟩
  have h1 := hv.1
  norm_num at h1
  linarith

/-- Claim C9, witness: the amended theorem applied at size −1. -/
theorem generator_has_no_dimension_guard_witness :
    (-1 : ℚ) ≤ 0 ∧
    (¬ cubeParamsValid (-1) ∧ (generate_cube (-1)).2.triangles = 12 ∧
      (generate_cube (-1)).1
        = create_stl_header ++ stlBody Rat.sqrt (cubeTriangles (-1)) ++ create_stl_footer) :=
  ⟨by norm_num, generator_has_no_dimension_guard (-1) (by norm_num)⟩

/-- Claim C10: for every size > 0 the 12-triangle cube mesh is a closed
2-manifold: every directed edge occurs exactly once and its reversal exactly
once, so every undirected edge is shared by exactly two triangles with
opposite traversal. -/
theorem cube_mesh_watertight (size : ℚ) (h : 0 < size) :
    manifoldMesh (cubeTriangles size) := by
  intro e he
  rw [cubeTriangles_eq_cornerPt, meshEdges_map] at he ⊢
  obtain ⟨e', he', rfl⟩ := List.mem_map.1 he
  have hinj : Function.Injective (Prod.map (cornerPt size) (cornerPt size)) :=
    (cornerPt_inj size h.ne').prodMap (cornerPt_inj size h.ne')
  have hswap : (Prod.map (cornerPt size) (cornerPt size) e').swap
      = Prod.map (cornerPt size) (cornerPt size) e'.swap := by
    cases e'; rfl
  rw [hswap]
  have h1 := countOcc_map (Prod.map (cornerPt size) (cornerPt size)) hinj
    (meshEdges cubeFacesB) e'
  have h2 := countOcc_map (Prod.map (cornerPt size) (cornerPt size)) hinj
    (meshEdges cubeFacesB) e'.swap
  exact ⟨h1.trans (cubeFacesB_manifold e' he').1, h2.trans (cubeFacesB_manifold e' he').2⟩

/-- Claim C10, witness: the watertightness theorem applied at size 1. -/
theorem cube_mesh_watertight_witness :
    (0 : ℚ) < 1 ∧ manifoldMesh (cubeTriangles 1) :=
  ⟨by norm_num, cube_mesh_watertight 1 (by norm_num)⟩

end Imagen3D
